import Mathlib

/-!
Verification of the Root Authorization Guard
(`apps/api/src/pkg/auth/root_key.ts`, function `rootKeyAuth`).

The guard reads the `authorization` header, strips the first occurrence of
the substring `"Bearer "` (JavaScript `String.prototype.replace` with a
string pattern replaces only the first occurrence, anywhere in the string),
rejects a missing or empty credential locally, otherwise calls
`keyService.verifyKey` once and branches on the result.

The embedding makes the service an explicit argument
(`verifyKey : String → Except ServiceError VerificationResult`) and the
guard additionally returns the list of credentials it sent to the service,
so that statements about call counts can be made.  JavaScript truthiness of
`if (!authorization)` is modelled exactly: the branch fires when the header
is absent (`undefined`) and also when the stripped string is empty
(`"" ` is falsy in JavaScript).
-/

/-- Error codes used by `UnkeyApiError` in the guard. -/
inductive ErrorCode where
  | UNAUTHORIZED
  | INTERNAL_SERVER_ERROR
  deriving DecidableEq

/-- The structured error thrown by the guard (`new UnkeyApiError({code, message})`). -/
structure UnkeyApiError where
  code : ErrorCode
  message : String
  deriving DecidableEq

/-- The error half of the key service's result (`rootKey.error`), carrying a message. -/
structure ServiceError where
  message : String
  deriving DecidableEq

/-- The value half of the key service's result (`rootKey.value`): the fields the
guard inspects (`valid`, `isRootKey`) plus one representative pass-through
field the guard never looks at. -/
structure VerificationResult where
  valid : Bool
  isRootKey : Bool
  ownerId : String
  deriving DecidableEq

/-- The shape of `keyService.verifyKey`: from a credential string to either an
error object or a verification result. -/
abbrev VerifyKey := String → Except ServiceError VerificationResult

/-- JavaScript `String.prototype.replace(pat, "")` on character lists: scan left
to right and delete the first occurrence of `pat`; leave the list unchanged when
`pat` does not occur. -/
def removeFirstOcc (pat : List Char) : List Char → List Char
  | [] => []
  | c :: rest =>
    if pat.isPrefixOf (c :: rest) then (c :: rest).drop pat.length
    else c :: removeFirstOcc pat rest

/-- JavaScript `s.replace(pat, "")` for a plain-string pattern: remove the first
occurrence of `pat` from `s`. -/
def jsReplaceFirst (s pat : String) : String :=
  ⟨removeFirstOcc pat.data s.data⟩

/-- Whether `pat` occurs as a contiguous sublist. -/
def containsOcc (pat : List Char) : List Char → Bool
  | [] => pat.isPrefixOf ([] : List Char)
  | c :: rest => pat.isPrefixOf (c :: rest) || containsOcc pat rest

/-- The guard `rootKeyAuth`, embedded from `root_key.ts`.

`header` is `c.req.header("authorization")` (`none` = header absent).  The
result pairs the guard's outcome (success value or thrown `UnkeyApiError`)
with the list of credentials passed to `verifyKey`, in order. -/
def rootKeyAuth (verifyKey : VerifyKey) (header : Option String) :
    Except UnkeyApiError VerificationResult × List String :=
  match header with
  | none => (Except.error ⟨ErrorCode.UNAUTHORIZED, "key required"⟩, [])
  | some h =>
    let authorization := jsReplaceFirst h "Bearer "
    if authorization = "" then
      (Except.error ⟨ErrorCode.UNAUTHORIZED, "key required"⟩, [])
    else
      match verifyKey authorization with
      | Except.error e =>
        (Except.error ⟨ErrorCode.INTERNAL_SERVER_ERROR, e.message⟩, [authorization])
      | Except.ok rootKey =>
        if rootKey.valid = false then
          (Except.error ⟨ErrorCode.UNAUTHORIZED, "the root key is not valid"⟩, [authorization])
        else if rootKey.isRootKey = false then
          (Except.error ⟨ErrorCode.UNAUTHORIZED, "root key required"⟩, [authorization])
        else
          (Except.ok rootKey, [authorization])

/-- A service that accepts every credential as a valid root key. -/
def svcOkRoot : VerifyKey := fun _ => Except.ok ⟨true, true, "acme"⟩

/-- A service that accepts every credential as valid but non-root. -/
def svcOkUser : VerifyKey := fun _ => Except.ok ⟨true, false, "acme"⟩

/-- A service that reports every credential as invalid. -/
def svcInvalid : VerifyKey := fun _ => Except.ok ⟨false, false, "acme"⟩

/-- A service whose call fails with a transport error. -/
def svcDown : VerifyKey := fun _ => Except.error ⟨"connection reset"⟩

/-- A service that knows exactly the credential `"k"`. -/
def svcOnlyK : VerifyKey := fun s =>
  if s = "k" then Except.ok ⟨true, true, "acme"⟩ else Except.error ⟨"unknown key"⟩

/-- Shape invariant on the guard's outcome: a failure carries code
`UNAUTHORIZED` or `INTERNAL_SERVER_ERROR`; a success has `valid = true` and
`isRootKey = true`. -/
def outcomeWellFormed : Except UnkeyApiError VerificationResult → Bool
  | Except.error e =>
    decide (e.code = ErrorCode.UNAUTHORIZED) || decide (e.code = ErrorCode.INTERNAL_SERVER_ERROR)
  | Except.ok v => v.valid && v.isRootKey

/-- C1: with no authorization header, the guard fails with `UNAUTHORIZED`,
message "key required", and the verification service is called zero times,
for every service. -/
theorem rootKeyAuth_no_header (verifyKey : VerifyKey) :
    rootKeyAuth verifyKey none =
      (Except.error ⟨ErrorCode.UNAUTHORIZED, "key required"⟩, []) := rfl

/-- C2, counterexample: the header `"Bearer "` is present and strips to the
empty string, yet the guard does not pass `""` to the service (the call list
is empty, not `[""]`) and instead fails locally with the missing-credential
error "key required".  JavaScript's `if (!authorization)` treats the empty
string as falsy. -/
theorem rootKeyAuth_empty_not_forwarded :
    jsReplaceFirst "Bearer " "Bearer " = "" ∧
    rootKeyAuth svcOkRoot (some "Bearer ") =
      (Except.error ⟨ErrorCode.UNAUTHORIZED, "key required"⟩, []) ∧
    (rootKeyAuth svcOkRoot (some "Bearer ")).2 ≠ [""] := by
  refine ⟨rfl, rfl, ?_⟩
  decide

/-- C2, amended: whenever the authorization header is present but strips to
the empty string, the guard fails locally with `UNAUTHORIZED`, message
"key required", and the verification service is never called. -/
theorem rootKeyAuth_empty_credential (verifyKey : VerifyKey) (h : String)
    (hempty : jsReplaceFirst h "Bearer " = "") :
    rootKeyAuth verifyKey (some h) =
      (Except.error ⟨ErrorCode.UNAUTHORIZED, "key required"⟩, []) := by
  simp [rootKeyAuth, hempty]

/-- Witness for the amended C2 at the concrete header `"Bearer "`. -/
theorem rootKeyAuth_empty_credential_witness :
    rootKeyAuth svcDown (some "Bearer ") =
      (Except.error ⟨ErrorCode.UNAUTHORIZED, "key required"⟩, []) :=
  rootKeyAuth_empty_credential svcDown "Bearer " (by decide)

/-- C3: when the stripped credential is non-empty and the service call
returns an error, the guard fails with `INTERNAL_SERVER_ERROR` carrying the
service error's message verbatim; the outcome is fully determined by that
message, so the `valid` / `isRootKey` checks are never reached. -/
theorem rootKeyAuth_service_error (verifyKey : VerifyKey) (h : String)
    (e : ServiceError)
    (hne : jsReplaceFirst h "Bearer " ≠ "")
    (herr : verifyKey (jsReplaceFirst h "Bearer ") = Except.error e) :
    rootKeyAuth verifyKey (some h) =
      (Except.error ⟨ErrorCode.INTERNAL_SERVER_ERROR, e.message⟩,
        [jsReplaceFirst h "Bearer "]) := by
  simp only [rootKeyAuth, if_neg hne, herr]

/-- Witness for C3 at header `"Bearer k"` and a failing service. -/
theorem rootKeyAuth_service_error_witness :
    rootKeyAuth svcDown (some "Bearer k") =
      (Except.error ⟨ErrorCode.INTERNAL_SERVER_ERROR, "connection reset"⟩, ["k"]) :=
  rootKeyAuth_service_error svcDown "Bearer k" ⟨"connection reset"⟩ (by decide) rfl

/-- C4: when the service returns a result with `valid = false`, the guard
fails with `UNAUTHORIZED`, message "the root key is not valid" — for every
value of `isRootKey` and of the pass-through field. -/
theorem rootKeyAuth_invalid_key (verifyKey : VerifyKey) (h : String)
    (v : VerificationResult)
    (hne : jsReplaceFirst h "Bearer " ≠ "")
    (hok : verifyKey (jsReplaceFirst h "Bearer ") = Except.ok v)
    (hval : v.valid = false) :
    rootKeyAuth verifyKey (some h) =
      (Except.error ⟨ErrorCode.UNAUTHORIZED, "the root key is not valid"⟩,
        [jsReplaceFirst h "Bearer "]) := by
  simp [rootKeyAuth, hne, hok, hval]

/-- Witness for C4 at header `"Bearer bad"`, service reporting invalid. -/
theorem rootKeyAuth_invalid_key_witness :
    rootKeyAuth svcInvalid (some "Bearer bad") =
      (Except.error ⟨ErrorCode.UNAUTHORIZED, "the root key is not valid"⟩, ["bad"]) :=
  rootKeyAuth_invalid_key svcInvalid "Bearer bad" ⟨false, false, "acme"⟩
    (by decide) rfl rfl

/-- C5: when the service returns `valid = true` but `isRootKey = false`, the
guard fails with `UNAUTHORIZED` and the distinct message "root key required". -/
theorem rootKeyAuth_not_root (verifyKey : VerifyKey) (h : String)
    (v : VerificationResult)
    (hne : jsReplaceFirst h "Bearer " ≠ "")
    (hok : verifyKey (jsReplaceFirst h "Bearer ") = Except.ok v)
    (hval : v.valid = true) (hroot : v.isRootKey = false) :
    rootKeyAuth verifyKey (some h) =
      (Except.error ⟨ErrorCode.UNAUTHORIZED, "root key required"⟩,
        [jsReplaceFirst h "Bearer "]) := by
  simp [rootKeyAuth, hne, hok, hval, hroot]

/-- Witness for C5 at header `"Bearer user-key"`, service reporting a valid
non-root key. -/
theorem rootKeyAuth_not_root_witness :
    rootKeyAuth svcOkUser (some "Bearer user-key") =
      (Except.error ⟨ErrorCode.UNAUTHORIZED, "root key required"⟩, ["user-key"]) :=
  rootKeyAuth_not_root svcOkUser "Bearer user-key" ⟨true, false, "acme"⟩
    (by decide) rfl rfl rfl

/-- C6: when the service returns `valid = true` and `isRootKey = true`, the
guard succeeds and returns that verification result unmodified, pass-through
fields included. -/
theorem rootKeyAuth_success (verifyKey : VerifyKey) (h : String)
    (v : VerificationResult)
    (hne : jsReplaceFirst h "Bearer " ≠ "")
    (hok : verifyKey (jsReplaceFirst h "Bearer ") = Except.ok v)
    (hval : v.valid = true) (hroot : v.isRootKey = true) :
    rootKeyAuth verifyKey (some h) =
      (Except.ok v, [jsReplaceFirst h "Bearer "]) := by
  simp [rootKeyAuth, hne, hok, hval, hroot]

/-- Witness for C6 at header `"Bearer abc123"`, service accepting the key as
a root key with pass-through field `"acme"`. -/
theorem rootKeyAuth_success_witness :
    rootKeyAuth svcOkRoot (some "Bearer abc123") =
      (Except.ok ⟨true, true, "acme"⟩, ["abc123"]) :=
  rootKeyAuth_success svcOkRoot "Bearer abc123" ⟨true, true, "acme"⟩
    (by decide) rfl rfl rfl

/-- Helper: the list of credentials the guard sends to the service is empty
when the stripped header is empty, and the singleton of the stripped header
otherwise. -/
theorem rootKeyAuth_calls_eq (verifyKey : VerifyKey) (h : String) :
    (rootKeyAuth verifyKey (some h)).2 =
      if jsReplaceFirst h "Bearer " = "" then [] else [jsReplaceFirst h "Bearer "] := by
  by_cases hc : jsReplaceFirst h "Bearer " = ""
  · simp [rootKeyAuth, hc]
  · simp only [rootKeyAuth, if_neg hc]
    cases hv : verifyKey (jsReplaceFirst h "Bearer ") with
    | error e => simp [hv, hc]
    | ok v =>
      by_cases h1 : v.valid = false <;> by_cases h2 : v.isRootKey = false <;>
        simp [hv, h1, h2, hc]

/-- C7, counterexample: an invocation with no authorization header makes zero
calls to the verification service, refuting "exactly one call per
invocation". -/
theorem rootKeyAuth_zero_calls :
    (rootKeyAuth svcInvalid none).2.length = 0 ∧
    (rootKeyAuth svcInvalid none).2.length ≠ 1 := by
  decide

/-- C7, amended: every invocation makes at most one call to the verification
service (so the guard never retries), and exactly one call when the header is
present and strips to a non-empty credential. -/
theorem rootKeyAuth_at_most_one_call (verifyKey : VerifyKey)
    (header : Option String) :
    (rootKeyAuth verifyKey header).2.length ≤ 1 ∧
    (∀ h, header = some h → jsReplaceFirst h "Bearer " ≠ "" →
      (rootKeyAuth verifyKey header).2.length = 1) := by
  cases header with
  | none => exact ⟨by simp [rootKeyAuth], fun h hh => absurd hh (by simp)⟩
  | some h =>
    constructor
    · rw [rootKeyAuth_calls_eq]
      by_cases hc : jsReplaceFirst h "Bearer " = "" <;> simp [hc]
    · intro h2 hh hne
      injection hh with hh
      subst hh
      rw [rootKeyAuth_calls_eq, if_neg hne]
      rfl

/-- Witness for the amended C7 at header `"Bearer abc"`. -/
theorem rootKeyAuth_at_most_one_call_witness :
    (rootKeyAuth svcOkUser (some "Bearer abc")).2.length = 1 :=
  (rootKeyAuth_at_most_one_call svcOkUser (some "Bearer abc")).2
    "Bearer abc" rfl (by decide)

/-- C8: the guard is deterministic in its inputs — for the same header value
and verification services that agree on the credential derived from that
header, the outcome (and the call list) is identical; no other request state
enters the decision. -/
theorem rootKeyAuth_deterministic (vk1 vk2 : VerifyKey) (header : Option String)
    (hsvc : ∀ h, header = some h →
      vk1 (jsReplaceFirst h "Bearer ") = vk2 (jsReplaceFirst h "Bearer ")) :
    rootKeyAuth vk1 header = rootKeyAuth vk2 header := by
  cases header with
  | none => rfl
  | some h =>
    have hs := hsvc h rfl
    simp only [rootKeyAuth]
    rw [hs]

/-- Witness for C8: two different services that agree on the credential
`"k"` produce identical guard outcomes for header `"Bearer k"`. -/
theorem rootKeyAuth_deterministic_witness :
    rootKeyAuth svcOkRoot (some "Bearer k") = rootKeyAuth svcOnlyK (some "Bearer k") :=
  rootKeyAuth_deterministic svcOkRoot svcOnlyK (some "Bearer k")
    (fun h hh => by injection hh with hh; subst hh; rfl)

/-- C9: for every service and every header, the guard's outcome is well
formed — a failure carries code `UNAUTHORIZED` or `INTERNAL_SERVER_ERROR`
with a message, and a success satisfies `valid = true` and
`isRootKey = true`; there is no success with `valid = false` or
`isRootKey = false`. -/
theorem rootKeyAuth_outcome_wellformed (verifyKey : VerifyKey)
    (header : Option String) :
    outcomeWellFormed (rootKeyAuth verifyKey header).1 = true := by
  cases header with
  | none => rfl
  | some h =>
    by_cases hc : jsReplaceFirst h "Bearer " = ""
    · simp [rootKeyAuth, hc, outcomeWellFormed]
    · simp only [rootKeyAuth, if_neg hc]
      cases hv : verifyKey (jsReplaceFirst h "Bearer ") with
      | error e => simp [outcomeWellFormed]
      | ok v =>
        by_cases h1 : v.valid = false <;> by_cases h2 : v.isRootKey = false <;>
          simp [outcomeWellFormed, h1, h2]

/-- Helper: when the pattern's first occurrence in `p ++ (pat ++ q)` starts
exactly at position `p.length`, the JavaScript replace deletes exactly that
occurrence. -/
theorem removeFirstOcc_first_position (pat : List Char) (hpat : pat ≠ []) :
    ∀ p q : List Char,
      (∀ i, i < p.length → pat.isPrefixOf (List.drop i (p ++ (pat ++ q))) = false) →
      removeFirstOcc pat (p ++ (pat ++ q)) = p ++ q := by
  intro p
  induction p with
  | nil =>
    intro q _
    obtain ⟨c, cs, rfl⟩ : ∃ c cs, pat = c :: cs := by
      cases pat with
      | nil => exact absurd rfl hpat
      | cons c cs => exact ⟨c, cs, rfl⟩
    show removeFirstOcc _ (c :: (cs ++ q)) = q
    rw [removeFirstOcc]
    have hpref : (c :: cs).isPrefixOf (c :: (cs ++ q)) = true := by
      rw [List.isPrefixOf_iff_prefix]
      exact ⟨q, by simp⟩
    rw [if_pos hpref]
    show List.drop (c :: cs).length ((c :: cs) ++ q) = q
    exact List.drop_left _ _
  | cons c p ih =>
    intro q hfirst
    show removeFirstOcc pat (c :: (p ++ (pat ++ q))) = c :: (p ++ q)
    rw [removeFirstOcc]
    have h0 : pat.isPrefixOf (c :: (p ++ (pat ++ q))) = false := by
      have := hfirst 0 (by simp)
      simpa using this
    rw [h0]
    simp only [Bool.false_eq_true, if_false]
    congr 1
    apply ih
    intro i hi
    have := hfirst (i + 1) (by simpa using Nat.succ_lt_succ hi)
    simpa using this

/-- Helper: when the pattern occurs nowhere in the list, the JavaScript
replace leaves the list unchanged. -/
theorem removeFirstOcc_of_not_contains (pat : List Char) :
    ∀ l : List Char, containsOcc pat l = false → removeFirstOcc pat l = l := by
  intro l
  induction l with
  | nil => intro _; rfl
  | cons c rest ih =>
    intro hno
    rw [containsOcc, Bool.or_eq_false_iff] at hno
    rw [removeFirstOcc, hno.1]
    simp only [Bool.false_eq_true, if_false]
    rw [ih hno.2]

/-- C10, counterexample: the header `"Bearer "` contains the substring
`"Bearer "`, yet the remainder after removing it (the empty string) is not
forwarded to the service — the guard makes no service call at all. -/
theorem rootKeyAuth_remainder_not_forwarded :
    containsOcc "Bearer ".data "Bearer ".data = true ∧
    (rootKeyAuth svcOnlyK (some "Bearer ")).2 ≠ [jsReplaceFirst "Bearer " "Bearer "] := by
  constructor
  · decide
  · decide

/-- C10, amended: the guard removes exactly the first occurrence of the
substring `"Bearer "` wherever it appears (a header without the substring is
left unchanged; `"xBearer y"` becomes `"xy"`; `"Bearer Bearer k"` becomes
`"Bearer k"`), and forwards the remainder as the credential exactly when the
remainder is non-empty; an empty remainder is rejected locally and the
service is not called. -/
theorem rootKeyAuth_strips_first_occurrence (verifyKey : VerifyKey) :
    (∀ p q : List Char,
      (∀ i, i < p.length →
        ("Bearer ".data).isPrefixOf (List.drop i (p ++ ("Bearer ".data ++ q))) = false) →
      removeFirstOcc "Bearer ".data (p ++ ("Bearer ".data ++ q)) = p ++ q) ∧
    (∀ s : String, containsOcc "Bearer ".data s.data = false →
      jsReplaceFirst s "Bearer " = s) ∧
    jsReplaceFirst "xBearer y" "Bearer " = "xy" ∧
    jsReplaceFirst "Bearer Bearer k" "Bearer " = "Bearer k" ∧
    (∀ h : String, jsReplaceFirst h "Bearer " ≠ "" →
      (rootKeyAuth verifyKey (some h)).2 = [jsReplaceFirst h "Bearer "]) ∧
    (∀ h : String, jsReplaceFirst h "Bearer " = "" →
      (rootKeyAuth verifyKey (some h)).2 = []) := by
  refine ⟨removeFirstOcc_first_position _ (by decide), ?_, by decide, by decide, ?_, ?_⟩
  · intro s hno
    show String.mk _ = s
    rw [removeFirstOcc_of_not_contains _ _ hno]
  · intro h hne
    rw [rootKeyAuth_calls_eq, if_neg hne]
  · intro h he
    rw [rootKeyAuth_calls_eq, if_pos he]

/-- Witness for the amended C10 at the concrete header `"xBearer y"`: the
credential forwarded to the service is `"xy"`. -/
theorem rootKeyAuth_strips_first_occurrence_witness :
    (rootKeyAuth svcInvalid (some "xBearer y")).2 = [jsReplaceFirst "xBearer y" "Bearer "] :=
  (rootKeyAuth_strips_first_occurrence svcInvalid).2.2.2.2.1 "xBearer y" (by decide)
